import Mathlib

/-!
Shallow embedding of the contact-form submission pipeline of `src/main.py`
(the `/contact` endpoint, `submit_contact`), together with theorems checking
the specification's claims about it.

The two external collaborators are parameters of the embedding:
* the DocumentStore (`create_document` from `database.py`) is represented by
  the outcome of its single call: either it raised, or it returned a value
  whose Python truthiness decides `stored`;
* the MailRelay (`smtplib.SMTP`) is represented by how far the four-step
  send sequence (connect, starttls, login, sendmail) gets before raising.

Side effects are recorded in an explicit event trace.
-/

/-- Python truthiness of an `os.getenv` result: `None` and `""` are falsy. -/
def pyTruthy : Option String → Bool
  | none => false
  | some s => s ≠ ""

/-- Python `a or b` on `os.getenv` results: returns `a` when truthy, else `b`. -/
def pyOr (a b : Option String) : Option String :=
  if pyTruthy a then a else b

/-- A character stripped by Python `str.strip()` with no argument. -/
def isPySpace (c : Char) : Bool :=
  c = ' ' || c = '\t' || c = '\n' || c = '\r' || c = '\x0b' || c = '\x0c'

/-- Python `s.strip()` on the character list: whitespace removed from both ends. -/
def pyStrip (cs : List Char) : List Char :=
  ((cs.dropWhile isPySpace).reverse.dropWhile isPySpace).reverse

/-- No two adjacent underscores (Python `int()` rejects `"5__87"`). -/
def noDoubleUnderscore : List Char → Bool
  | '_' :: '_' :: _ => false
  | _ :: rest => noDoubleUnderscore rest
  | [] => true

/-- The character sequence (sign already removed) is acceptable to Python
`int()`: non-empty, digits with optional single interior underscores. -/
def pyDigitsOk (cs : List Char) : Bool :=
  match cs with
  | [] => false
  | c :: _ =>
    c.isDigit && (match cs.getLast? with
                  | some d => d.isDigit
                  | none => false)
      && cs.all (fun x => x.isDigit || x = '_') && noDoubleUnderscore cs

/-- Decimal value of a digit list, ignoring underscores. -/
def digitsVal (cs : List Char) : Nat :=
  (cs.filter (· ≠ '_')).foldl (fun acc c => acc * 10 + (c.toNat - '0'.toNat)) 0

/-- Python `int(s)` on a string: strips surrounding whitespace, allows one
sign, then decimal digits with optional single interior underscores.
`none` models the `ValueError` raised on anything else. -/
def pyInt (s : String) : Option Int :=
  match pyStrip s.toList with
  | '+' :: rest => if pyDigitsOk rest then some (Int.ofNat (digitsVal rest)) else none
  | '-' :: rest => if pyDigitsOk rest then some (-(Int.ofNat (digitsVal rest))) else none
  | rest => if pyDigitsOk rest then some (Int.ofNat (digitsVal rest)) else none

/-- The identifier returned by `create_document`, as far as its Python
truthiness is observable in `bool(_id)` (line 96/126 of `src/main.py`). -/
inductive PyId where
  | pynone
  | pystr (s : String)
  | pyint (n : Int)
deriving DecidableEq, Repr

/-- Python `bool(_id)`. -/
def PyId.truthy : PyId → Bool
  | .pynone => false
  | .pystr s => s ≠ ""
  | .pyint n => n ≠ 0

/-- The request body of the `/contact` endpoint (`ContactRequest`,
lines 65-68 of `src/main.py`). -/
structure ContactRequest where
  name : String
  email : String
  message : String
deriving DecidableEq, Repr

/-- The environment variables read by `submit_contact` (lines 85-90),
each `none` when unset. -/
structure Env where
  SMTP_HOST : Option String
  SMTP_PORT : Option String
  SMTP_USER : Option String
  SMTP_PASS : Option String
  SMTP_FROM : Option String
  SMTP_TO : Option String
  CONTACT_RECIPIENT : Option String
deriving DecidableEq, Repr

/-- The JSON object returned by `submit_contact` (lines 94-99 and 124-129). -/
structure SubmissionResult where
  ok : Bool
  stored : Bool
  email_sent : Bool
  message : String
deriving DecidableEq, Repr

/-- Observable side effects of one request: the DocumentStore call and the
four steps of the SMTP interaction. -/
inductive Event where
  | storeCreate (collection name email message : String)
  | smtpConnect (host : String) (port : Int)
  | smtpStarttls
  | smtpLogin (user pw : String)
  | smtpSendmail (sender : String) (recipients : List String) (body : String)
deriving DecidableEq, Repr

/-- Whether an event is a DocumentStore call. -/
def Event.isStoreCall : Event → Bool
  | .storeCreate .. => true
  | _ => false

/-- Whether an event is any interaction with the MailRelay. -/
def Event.isRelayEvent : Event → Bool
  | .smtpConnect .. => true
  | .smtpStarttls => true
  | .smtpLogin .. => true
  | .smtpSendmail .. => true
  | _ => false

/-- Whether an event is the opening of a network connection to the relay. -/
def Event.isConnect : Event → Bool
  | .smtpConnect .. => true
  | _ => false

/-- How far the MailRelay send sequence of lines 116-119 gets: each
constructor but `sendOk` names the step whose call raises. -/
inductive RelayOutcome where
  | connectFail
  | starttlsFail
  | loginFail
  | sendFail
  | sendOk
deriving DecidableEq, Repr

/-- The outcome of the single `create_document` call: `Except.error ()` when
it raises (store unreachable or absent), `Except.ok v` when it returns `v`. -/
abbrev StoreOutcome := Except Unit PyId

/-- The condition of line 92 of `src/main.py`:
`smtp_host and smtp_port and smtp_user and smtp_pass and smtp_from and smtp_to`,
with `smtp_port` an `int` (falsy exactly when `0`) and the others
`os.getenv` results. -/
def configComplete (env : Env) (smtp_port : Int) : Bool :=
  pyTruthy env.SMTP_HOST && !(smtp_port == 0) && pyTruthy env.SMTP_USER
    && pyTruthy env.SMTP_PASS && pyTruthy (pyOr env.SMTP_FROM env.SMTP_USER)
    && pyTruthy (pyOr env.SMTP_TO env.CONTACT_RECIPIENT)

/-- Python `payload.message.replace('\n', '<br/>')`: since the pattern is a
single character, replacement is character-wise. -/
def replaceNewlines (s : String) : String :=
  String.mk (s.toList.map (fun c => if c = '\n' then "<br/>".toList else [c])).flatten

/-- The HTML body rendered at lines 102-107: an f-string interpolating the
name, the email and the message with `'\n'` replaced by `'<br/>'`. -/
def htmlBody (payload : ContactRequest) : String :=
  "\n        <h2>New Contact Inquiry</h2>\n        <p><strong>Name:</strong> "
    ++ payload.name
    ++ "</p>\n        <p><strong>Email:</strong> "
    ++ payload.email
    ++ "</p>\n        <p><strong>Message:</strong><br/>"
    ++ replaceNewlines payload.message
    ++ "</p>\n    "

/-- The events of the `with smtplib.SMTP(...)` block of lines 116-119, in
source order, cut off at the step that raises. -/
def relayTrace (host : String) (port : Int) (user pw sender recipient body : String) :
    RelayOutcome → List Event
  | .connectFail => [.smtpConnect host port]
  | .starttlsFail => [.smtpConnect host port, .smtpStarttls]
  | .loginFail => [.smtpConnect host port, .smtpStarttls, .smtpLogin user pw]
  | .sendFail => [.smtpConnect host port, .smtpStarttls, .smtpLogin user pw,
                  .smtpSendmail sender [recipient] body]
  | .sendOk => [.smtpConnect host port, .smtpStarttls, .smtpLogin user pw,
                .smtpSendmail sender [recipient] body]

/-- The exact message of lines 94-99 of `src/main.py`. -/
def notConfiguredMessage : String :=
  "Contact saved. Email service not configured on server. Please set SMTP environment variables to enable email sending."

/-- The exact message of lines 124-129 of `src/main.py`. -/
def thanksMessage : String :=
  "Thanks! Your message has been received. We'll get back to you shortly."

/-- The value of `_id` after lines 77-82: the identifier returned by
`create_document`, or `None` when the call raised and was caught. -/
def storeId (store : StoreOutcome) : PyId :=
  match store with
  | .ok v => v
  | .error _ => .pynone

/-- The DocumentStore call of line 79:
`create_document("contactmessage", contact_doc)`. -/
def storeEvent (payload : ContactRequest) : Event :=
  .storeCreate "contactmessage" payload.name payload.email payload.message

/-- The body of `submit_contact` (lines 70-129 of `src/main.py`), after the
framework has already accepted the payload. `Except.error ()` models an
exception escaping the handler (only the `int()` of line 86 can raise
outside a `try`). The second component is the trace of side effects. -/
def submit_contact (store : StoreOutcome) (relay : RelayOutcome)
    (env : Env) (payload : ContactRequest) :
    Except Unit SubmissionResult × List Event :=
  match pyInt (env.SMTP_PORT.getD "587") with
  | none => (.error (), [storeEvent payload])
  | some smtp_port =>
    if configComplete env smtp_port then
      (.ok { ok := true, stored := (storeId store).truthy,
             email_sent := relay == .sendOk, message := thanksMessage },
       storeEvent payload ::
         relayTrace (env.SMTP_HOST.getD "") smtp_port (env.SMTP_USER.getD "")
           (env.SMTP_PASS.getD "") ((pyOr env.SMTP_FROM env.SMTP_USER).getD "")
           ((pyOr env.SMTP_TO env.CONTACT_RECIPIENT).getD "") (htmlBody payload) relay)
    else
      (.ok { ok := true, stored := (storeId store).truthy,
             email_sent := false, message := notConfiguredMessage },
       [storeEvent payload])

/-- Modelled from the spec: the email syntax validation performed by the
framework on the `email: EmailStr` field of `ContactRequest` (pydantic's
`EmailStr`, an external dependency whose code is not in this repository).
The spec asks for an RFC-5322-style syntactic check; modelled as: exactly
one `@`, a non-empty local part without spaces, and a domain that is
non-empty, without spaces, containing a dot neither first nor last. -/
def is_valid_email (s : String) : Bool :=
  let cs := s.toList
  let localPart := cs.takeWhile (· ≠ '@')
  let domain := (cs.dropWhile (· ≠ '@')).drop 1
  (cs.count '@' == 1) && localPart ≠ [] && domain ≠ []
    && !(localPart.contains ' ') && !(domain.contains ' ')
    && domain.contains '.' && domain.head? ≠ some '.' && domain.getLast? ≠ some '.'

/-- The observable HTTP outcome of a request to `/contact`. -/
inductive EndpointOutcome where
  | invalidInput
  | serverError
  | success (r : SubmissionResult)
deriving DecidableEq, Repr

/-- The `/contact` endpoint: the framework validates the payload against
`ContactRequest` first (rejecting a syntactically invalid email with a
422 before the handler body runs), then executes `submit_contact`. -/
def contact_endpoint (store : StoreOutcome) (relay : RelayOutcome)
    (env : Env) (payload : ContactRequest) :
    EndpointOutcome × List Event :=
  if is_valid_email payload.email then
    match submit_contact store relay env payload with
    | (.ok r, tr) => (.success r, tr)
    | (.error _, tr) => (.serverError, tr)
  else
    (.invalidInput, [])

/-! Concrete fixtures used by witnesses and counterexamples. -/

/-- No environment variable set at all. -/
def envNone : Env := ⟨none, none, none, none, none, none, none⟩

/-- A fully configured SMTP environment (port left to its default). -/
def envFull : Env :=
  ⟨some "smtp.example.com", none, some "user@example.com", some "pw",
   some "from@example.com", some "to@example.com", none⟩

/-- The spec's scenario payload. -/
def payloadAda : ContactRequest := ⟨"Ada", "ada@example.com", "Hi\nthere"⟩

/-- C1: if the email field is not syntactically valid, the endpoint answers
with the validation error and the trace holds no DocumentStore call and no
MailRelay interaction at all. -/
theorem c1_invalid_email_rejected_without_side_effects
    (store : StoreOutcome) (relay : RelayOutcome) (env : Env) (payload : ContactRequest)
    (h : is_valid_email payload.email = false) :
    (contact_endpoint store relay env payload).1 = .invalidInput
      ∧ (contact_endpoint store relay env payload).2.countP Event.isStoreCall = 0
      ∧ (contact_endpoint store relay env payload).2.countP Event.isRelayEvent = 0 := by
  simp [contact_endpoint, h]

/-- Witness for C1 at a concrete invalid email. -/
theorem c1_witness :
    (contact_endpoint (.ok (.pystr "oid")) .sendOk envFull ⟨"Ada", "not-an-email", "Hi"⟩).1 = .invalidInput
      ∧ (contact_endpoint (.ok (.pystr "oid")) .sendOk envFull ⟨"Ada", "not-an-email", "Hi"⟩).2.countP Event.isStoreCall = 0
      ∧ (contact_endpoint (.ok (.pystr "oid")) .sendOk envFull ⟨"Ada", "not-an-email", "Hi"⟩).2.countP Event.isRelayEvent = 0 :=
  c1_invalid_email_rejected_without_side_effects _ _ _ _ (by decide)

/-- C2: whenever the endpoint produces a `SubmissionResult` at all, its `ok`
field is `true`, whatever the store outcome, the relay outcome and the
environment were. -/
theorem c2_ok_always_true
    (store : StoreOutcome) (relay : RelayOutcome) (env : Env) (payload : ContactRequest)
    (r : SubmissionResult) (tr : List Event)
    (h : contact_endpoint store relay env payload = (.success r, tr)) :
    r.ok = true := by
  unfold contact_endpoint at h
  by_cases hv : is_valid_email payload.email = true
  · rw [if_pos hv] at h
    unfold submit_contact at h
    rcases hp : pyInt (env.SMTP_PORT.getD "587") with _ | port <;>
      rw [hp] at h <;> dsimp only at h
    · simp at h
    · by_cases hc : configComplete env port = true
      · rw [if_pos hc] at h
        dsimp only at h
        simp only [Prod.mk.injEq, EndpointOutcome.success.injEq] at h
        rw [← h.1]
      · rw [if_neg hc] at h
        dsimp only at h
        simp only [Prod.mk.injEq, EndpointOutcome.success.injEq] at h
        rw [← h.1]
  · rw [if_neg hv] at h
    simp at h

/-- Witness for C2 at a concrete valid input. -/
theorem c2_witness :
    (⟨true, true, false, notConfiguredMessage⟩ : SubmissionResult).ok = true :=
  c2_ok_always_true (.ok (.pystr "oid")) .sendOk envNone payloadAda
    ⟨true, true, false, notConfiguredMessage⟩ [storeEvent payloadAda] (by decide)

/-- Python truthiness of `_id` holds exactly when the store call returned a
truthy value (shared helper). -/
theorem storeId_truthy_iff (store : StoreOutcome) :
    (storeId store).truthy = true ↔ ∃ v, store = .ok v ∧ v.truthy = true := by
  cases store with
  | ok v => simp [storeId]
  | error e => simp [storeId, PyId.truthy]

/-- C3: when the DocumentStore call raises, the result reports
`stored = false`, while the email-related fields of the response and the
whole side-effect trace are the same as in a run whose store call
succeeded: the persistence failure never escalates. -/
theorem c3_store_failure_absorbed
    (relay : RelayOutcome) (env : Env) (payload : ContactRequest)
    (r r' : SubmissionResult) (tr tr' : List Event)
    (hv : is_valid_email payload.email = true)
    (h : contact_endpoint (.error ()) relay env payload = (.success r, tr))
    (h' : contact_endpoint (.ok (.pystr "oid")) relay env payload = (.success r', tr')) :
    r.stored = false ∧ r.email_sent = r'.email_sent ∧ r.message = r'.message ∧ tr = tr' := by
  unfold contact_endpoint at h h'
  rw [if_pos hv] at h h'
  unfold submit_contact at h h'
  rcases hp : pyInt (env.SMTP_PORT.getD "587") with _ | port <;>
    rw [hp] at h h' <;> dsimp only at h h'
  · simp at h
  · by_cases hc : configComplete env port = true
    · rw [if_pos hc] at h h'
      dsimp only at h h'
      simp only [Prod.mk.injEq, EndpointOutcome.success.injEq] at h h'
      rw [← h.1, ← h.2, ← h'.1, ← h'.2]
      exact ⟨rfl, rfl, rfl, rfl⟩
    · rw [if_neg hc] at h h'
      dsimp only at h h'
      simp only [Prod.mk.injEq, EndpointOutcome.success.injEq] at h h'
      rw [← h.1, ← h.2, ← h'.1, ← h'.2]
      exact ⟨rfl, rfl, rfl, rfl⟩

/-- Witness for C3 with no environment configured. -/
theorem c3_witness :
    (⟨true, false, false, notConfiguredMessage⟩ : SubmissionResult).stored = false
      ∧ (⟨true, false, false, notConfiguredMessage⟩ : SubmissionResult).email_sent
          = (⟨true, true, false, notConfiguredMessage⟩ : SubmissionResult).email_sent
      ∧ (⟨true, false, false, notConfiguredMessage⟩ : SubmissionResult).message
          = (⟨true, true, false, notConfiguredMessage⟩ : SubmissionResult).message
      ∧ [storeEvent payloadAda] = [storeEvent payloadAda] :=
  c3_store_failure_absorbed .sendOk envNone payloadAda
    ⟨true, false, false, notConfiguredMessage⟩ ⟨true, true, false, notConfiguredMessage⟩
    [storeEvent payloadAda] [storeEvent payloadAda] (by decide) (by decide) (by decide)

/-- C10: the `stored` field is `true` exactly when the DocumentStore call
returned without raising and its returned identifier was truthy in the
Python sense. -/
theorem c10_stored_iff_truthy_identifier
    (store : StoreOutcome) (relay : RelayOutcome) (env : Env) (payload : ContactRequest)
    (r : SubmissionResult) (tr : List Event)
    (h : contact_endpoint store relay env payload = (.success r, tr)) :
    r.stored = true ↔ ∃ v, store = .ok v ∧ v.truthy = true := by
  have hs : r.stored = (storeId store).truthy := by
    unfold contact_endpoint at h
    by_cases hv : is_valid_email payload.email = true
    · rw [if_pos hv] at h
      unfold submit_contact at h
      rcases hp : pyInt (env.SMTP_PORT.getD "587") with _ | port <;>
        rw [hp] at h <;> dsimp only at h
      · simp at h
      · by_cases hc : configComplete env port = true
        · rw [if_pos hc] at h
          dsimp only at h
          simp only [Prod.mk.injEq, EndpointOutcome.success.injEq] at h
          rw [← h.1]
        · rw [if_neg hc] at h
          dsimp only at h
          simp only [Prod.mk.injEq, EndpointOutcome.success.injEq] at h
          rw [← h.1]
    · rw [if_neg hv] at h
      simp at h
  rw [hs]
  exact storeId_truthy_iff store

/-- Witness for C10: a store call that succeeds but returns the empty
string still yields `stored = false` (here via the `ok` direction of the
equivalence at a successful truthy store). -/
theorem c10_witness :
    (⟨true, true, false, notConfiguredMessage⟩ : SubmissionResult).stored = true
      ↔ ∃ v, (Except.ok (PyId.pystr "oid") : StoreOutcome) = .ok v ∧ v.truthy = true :=
  c10_stored_iff_truthy_identifier (.ok (.pystr "oid")) .sendOk envNone payloadAda
    ⟨true, true, false, notConfiguredMessage⟩ [storeEvent payloadAda] (by decide)

/-- A fully configured environment except that `SMTP_PORT` holds a value
`int()` cannot parse. -/
def envBadPort : Env :=
  ⟨some "smtp.example.com", some "not-a-number", some "user@example.com", some "pw",
   some "from@example.com", some "to@example.com", none⟩

/-- C4 fails as stated: with a valid email but `SMTP_PORT` set to an
unparsable value, `int(os.getenv("SMTP_PORT", "587"))` raises outside any
`try`, so the request ends in a server error instead of a
`SubmissionResult`. -/
theorem c4_counterexample :
    is_valid_email payloadAda.email = true
      ∧ (contact_endpoint (.ok (.pystr "oid")) .sendOk envBadPort payloadAda).1
          = .serverError := by
  decide

/-- C4 amended: once email validation has succeeded and the `SMTP_PORT`
value (default `"587"`) parses as an integer, the pipeline always returns a
`SubmissionResult`; every other downstream failure is absorbed into its
boolean fields. -/
theorem c4_amended_no_raise_when_port_parses
    (store : StoreOutcome) (relay : RelayOutcome) (env : Env) (payload : ContactRequest)
    (hv : is_valid_email payload.email = true)
    (hp : (pyInt (env.SMTP_PORT.getD "587")).isSome = true) :
    ∃ r tr, contact_endpoint store relay env payload = (.success r, tr) := by
  obtain ⟨port, hport⟩ := Option.isSome_iff_exists.mp hp
  unfold contact_endpoint
  rw [if_pos hv]
  unfold submit_contact
  rw [hport]
  dsimp only
  by_cases hc : configComplete env port = true
  · rw [if_pos hc]
    exact ⟨_, _, rfl⟩
  · rw [if_neg hc]
    exact ⟨_, _, rfl⟩

/-- Witness for the amended C4 at a concrete input. -/
theorem c4_witness :
    ∃ r tr, contact_endpoint (.error ()) .connectFail envNone payloadAda = (.success r, tr) :=
  c4_amended_no_raise_when_port_parses (.error ()) .connectFail envNone payloadAda
    (by decide) (by decide)

/-- C5: if any of the six effective configuration values is missing (falsy),
the result reports `email_sent = false` with exactly the "not configured"
message, and the trace holds no connection to the relay. -/
theorem c5_incomplete_config_skips_email
    (store : StoreOutcome) (relay : RelayOutcome) (env : Env) (payload : ContactRequest)
    (port : Int)
    (hv : is_valid_email payload.email = true)
    (hp : pyInt (env.SMTP_PORT.getD "587") = some port)
    (hmiss : pyTruthy env.SMTP_HOST = false ∨ port = 0
      ∨ pyTruthy env.SMTP_USER = false ∨ pyTruthy env.SMTP_PASS = false
      ∨ pyTruthy (pyOr env.SMTP_FROM env.SMTP_USER) = false
      ∨ pyTruthy (pyOr env.SMTP_TO env.CONTACT_RECIPIENT) = false) :
    contact_endpoint store relay env payload
      = (.success { ok := true, stored := (storeId store).truthy,
                    email_sent := false, message := notConfiguredMessage },
         [storeEvent payload])
      ∧ (contact_endpoint store relay env payload).2.countP Event.isConnect = 0 := by
  have hc : configComplete env port = false := by
    rcases hmiss with h1 | h1 | h1 | h1 | h1 | h1 <;> simp [configComplete, h1]
  have hmain : contact_endpoint store relay env payload
      = (.success { ok := true, stored := (storeId store).truthy,
                    email_sent := false, message := notConfiguredMessage },
         [storeEvent payload]) := by
    unfold contact_endpoint
    rw [if_pos hv]
    unfold submit_contact
    rw [hp]
    dsimp only
    rw [if_neg (by simp [hc])]
  refine ⟨hmain, ?_⟩
  rw [hmain]
  simp [storeEvent, Event.isConnect]

/-- Witness for C5 with no environment configured at all. -/
theorem c5_witness :
    contact_endpoint (.ok (.pystr "oid")) .sendOk envNone payloadAda
      = (.success { ok := true, stored := (storeId (.ok (.pystr "oid"))).truthy,
                    email_sent := false, message := notConfiguredMessage },
         [storeEvent payloadAda])
      ∧ (contact_endpoint (.ok (.pystr "oid")) .sendOk envNone payloadAda).2.countP
          Event.isConnect = 0 :=
  c5_incomplete_config_skips_email (.ok (.pystr "oid")) .sendOk envNone payloadAda 587
    (by decide) (by decide) (Or.inl (by decide))

/-- Formalisation of C6's own wording, kept separate from the source
translation so the two can be compared: the effective from-address falls
back to `SMTP_USER` only when `SMTP_FROM` is *unset*. -/
def claimEffectiveFrom (env : Env) : Option String :=
  match env.SMTP_FROM with
  | none => env.SMTP_USER
  | some s => some s

/-- A complete configuration except that `SMTP_FROM` is set to the empty
string. -/
def envEmptyFrom : Env :=
  ⟨some "smtp.example.com", none, some "user@example.com", some "pw",
   some "", some "to@example.com", none⟩

/-- C6 fails as stated: with `SMTP_FROM` set but empty, the claim's
effective from-address is empty — so by the claim no delivery should be
attempted — yet the code's `or`-fallback substitutes `SMTP_USER` and a
connection to the relay is opened (and the send succeeds). -/
theorem c6_counterexample :
    pyTruthy (claimEffectiveFrom envEmptyFrom) = false
      ∧ (contact_endpoint (.ok (.pystr "oid")) .sendOk envEmptyFrom payloadAda).2.countP
          Event.isConnect = 1
      ∧ (contact_endpoint (.ok (.pystr "oid")) .sendOk envEmptyFrom payloadAda).1
          = .success ⟨true, true, true, thanksMessage⟩ := by
  decide

/-- C6 amended: delivery is attempted exactly when all six effective values
are truthy, where the from-address falls back to `SMTP_USER` and the
to-address to `CONTACT_RECIPIENT` whenever the primary variable is unset
*or empty* (Python `or`), and the port defaults to `587` only when
`SMTP_PORT` is entirely unset. -/
theorem c6_amended_attempt_iff_config_complete
    (store : StoreOutcome) (relay : RelayOutcome) (env : Env) (payload : ContactRequest)
    (port : Int)
    (hv : is_valid_email payload.email = true)
    (hp : pyInt (env.SMTP_PORT.getD "587") = some port) :
    0 < (contact_endpoint store relay env payload).2.countP Event.isConnect
      ↔ (pyTruthy env.SMTP_HOST = true ∧ port ≠ 0
          ∧ pyTruthy env.SMTP_USER = true ∧ pyTruthy env.SMTP_PASS = true
          ∧ pyTruthy (pyOr env.SMTP_FROM env.SMTP_USER) = true
          ∧ pyTruthy (pyOr env.SMTP_TO env.CONTACT_RECIPIENT) = true) := by
  unfold contact_endpoint
  rw [if_pos hv]
  unfold submit_contact
  rw [hp]
  dsimp only
  by_cases hc : configComplete env port = true
  · rw [if_pos hc]
    have hc' := hc
    simp only [configComplete, Bool.and_eq_true, bne_iff_ne, ne_eq,
      Bool.not_eq_true', beq_eq_false_iff_ne] at hc'
    constructor
    · intro _
      obtain ⟨⟨⟨⟨⟨h1, h2⟩, h3⟩, h4⟩, h5⟩, h6⟩ := hc'
      exact ⟨h1, h2, h3, h4, h5, h6⟩
    · intro _
      cases relay <;> simp [relayTrace, storeEvent, Event.isConnect]
  · rw [if_neg hc]
    constructor
    · intro habs
      simp [storeEvent, Event.isConnect] at habs
    · rintro ⟨h1, h2, h3, h4, h5, h6⟩
      exact absurd (by simp [configComplete, h1, h2, h3, h4, h5, h6]) hc

/-- Witness for the amended C6 at a complete configuration. -/
theorem c6_witness :
    0 < (contact_endpoint (.ok (.pystr "oid")) .sendOk envFull payloadAda).2.countP
        Event.isConnect
      ↔ (pyTruthy envFull.SMTP_HOST = true ∧ (587 : Int) ≠ 0
          ∧ pyTruthy envFull.SMTP_USER = true ∧ pyTruthy envFull.SMTP_PASS = true
          ∧ pyTruthy (pyOr envFull.SMTP_FROM envFull.SMTP_USER) = true
          ∧ pyTruthy (pyOr envFull.SMTP_TO envFull.CONTACT_RECIPIENT) = true) :=
  c6_amended_attempt_iff_config_complete (.ok (.pystr "oid")) .sendOk envFull payloadAda 587
    (by decide) (by decide)

/-- C7: with a complete configuration, if any step of the relay interaction
raises, the result still reports `email_sent = false` with the "thanks"
message (not the "not configured" one), and exactly one connection is
opened: no retry. -/
theorem c7_delivery_failure_keeps_thanks_message
    (store : StoreOutcome) (relay : RelayOutcome) (env : Env) (payload : ContactRequest)
    (port : Int)
    (hv : is_valid_email payload.email = true)
    (hp : pyInt (env.SMTP_PORT.getD "587") = some port)
    (hc : configComplete env port = true)
    (hfail : relay ≠ .sendOk) :
    ∃ tr, contact_endpoint store relay env payload
        = (.success { ok := true, stored := (storeId store).truthy,
                      email_sent := false, message := thanksMessage }, tr)
      ∧ tr.countP Event.isConnect = 1 := by
  unfold contact_endpoint
  rw [if_pos hv]
  unfold submit_contact
  rw [hp]
  dsimp only
  rw [if_pos hc]
  dsimp only
  have hb : (relay == RelayOutcome.sendOk) = false := by
    cases relay <;> first | rfl | exact absurd rfl hfail
  rw [hb]
  refine ⟨_, rfl, ?_⟩
  cases relay <;> simp [relayTrace, storeEvent, Event.isConnect]

/-- Witness for C7 with a failing login step. -/
theorem c7_witness :
    ∃ tr, contact_endpoint (.ok (.pystr "oid")) .loginFail envFull payloadAda
        = (.success { ok := true, stored := (storeId (.ok (.pystr "oid"))).truthy,
                      email_sent := false, message := thanksMessage }, tr)
      ∧ tr.countP Event.isConnect = 1 :=
  c7_delivery_failure_keeps_thanks_message (.ok (.pystr "oid")) .loginFail envFull payloadAda
    587 (by decide) (by decide) (by decide) (by decide)

/-- C8: with a complete configuration and a fully successful relay
interaction, the result reports `email_sent = true` with exactly the
"thanks" message. -/
theorem c8_delivery_success
    (store : StoreOutcome) (env : Env) (payload : ContactRequest) (port : Int)
    (hv : is_valid_email payload.email = true)
    (hp : pyInt (env.SMTP_PORT.getD "587") = some port)
    (hc : configComplete env port = true) :
    ∃ tr, contact_endpoint store .sendOk env payload
        = (.success { ok := true, stored := (storeId store).truthy,
                      email_sent := true, message := thanksMessage }, tr) := by
  unfold contact_endpoint
  rw [if_pos hv]
  unfold submit_contact
  rw [hp]
  dsimp only
  rw [if_pos hc]
  dsimp only
  exact ⟨_, rfl⟩

/-- Witness for C8. -/
theorem c8_witness :
    ∃ tr, contact_endpoint (.ok (.pystr "oid")) .sendOk envFull payloadAda
        = (.success { ok := true, stored := (storeId (.ok (.pystr "oid"))).truthy,
                      email_sent := true, message := thanksMessage }, tr) :=
  c8_delivery_success (.ok (.pystr "oid")) envFull payloadAda 587
    (by decide) (by decide) (by decide)

/-- After the replacement of line 106, no newline character remains in the
message part of the body (shared helper). -/
theorem replaceNewlines_no_newline (s : String) :
    ¬ '\n' ∈ (replaceNewlines s).toList := by
  intro hmem
  simp only [replaceNewlines] at hmem
  rw [show (String.mk (s.toList.map
        (fun c => if c = '\n' then "<br/>".toList else [c])).flatten).toList
      = (s.toList.map (fun c => if c = '\n' then "<br/>".toList else [c])).flatten from rfl,
    List.mem_flatten] at hmem
  obtain ⟨l, hl, hnl⟩ := hmem
  rw [List.mem_map] at hl
  obtain ⟨c, _, rfl⟩ := hl
  by_cases hc : c = '\n'
  · rw [if_pos hc] at hnl
    exact absurd hnl (by decide)
  · rw [if_neg hc] at hnl
    rw [List.mem_singleton] at hnl
    exact hc hnl.symm

/-- C9: with a complete configuration and a successful send, the relay
interaction is exactly connect, then STARTTLS, then login, then sendmail
(upgrade before authentication before transmission), and the delivered body
is the HTML body, which contains the submission's name, email, and message
with every newline replaced (no newline character left in the message
part). -/
theorem c9_mail_content_and_sequence
    (store : StoreOutcome) (env : Env) (payload : ContactRequest) (port : Int)
    (hv : is_valid_email payload.email = true)
    (hp : pyInt (env.SMTP_PORT.getD "587") = some port)
    (hc : configComplete env port = true) :
    ∃ r, contact_endpoint store .sendOk env payload
        = (.success r,
           [storeEvent payload,
            .smtpConnect (env.SMTP_HOST.getD "") port, .smtpStarttls,
            .smtpLogin (env.SMTP_USER.getD "") (env.SMTP_PASS.getD ""),
            .smtpSendmail ((pyOr env.SMTP_FROM env.SMTP_USER).getD "")
              [(pyOr env.SMTP_TO env.CONTACT_RECIPIENT).getD ""] (htmlBody payload)])
      ∧ (∃ a b, htmlBody payload = a ++ payload.name ++ b)
      ∧ (∃ a b, htmlBody payload = a ++ payload.email ++ b)
      ∧ (∃ a b, htmlBody payload = a ++ replaceNewlines payload.message ++ b)
      ∧ ¬ '\n' ∈ (replaceNewlines payload.message).toList := by
  refine ⟨⟨true, (storeId store).truthy, true, thanksMessage⟩, ?_, ?_, ?_, ?_,
    replaceNewlines_no_newline payload.message⟩
  · unfold contact_endpoint
    rw [if_pos hv]
    unfold submit_contact
    rw [hp]
    dsimp only
    rw [if_pos hc]
    rfl
  · refine ⟨"\n        <h2>New Contact Inquiry</h2>\n        <p><strong>Name:</strong> ",
      "</p>\n        <p><strong>Email:</strong> " ++ payload.email
        ++ "</p>\n        <p><strong>Message:</strong><br/>"
        ++ replaceNewlines payload.message ++ "</p>\n    ", ?_⟩
    apply String.ext
    simp [htmlBody, String.data_append, List.append_assoc]
  · refine ⟨"\n        <h2>New Contact Inquiry</h2>\n        <p><strong>Name:</strong> "
        ++ payload.name ++ "</p>\n        <p><strong>Email:</strong> ",
      "</p>\n        <p><strong>Message:</strong><br/>"
        ++ replaceNewlines payload.message ++ "</p>\n    ", ?_⟩
    apply String.ext
    simp [htmlBody, String.data_append, List.append_assoc]
  · refine ⟨"\n        <h2>New Contact Inquiry</h2>\n        <p><strong>Name:</strong> "
        ++ payload.name ++ "</p>\n        <p><strong>Email:</strong> "
        ++ payload.email ++ "</p>\n        <p><strong>Message:</strong><br/>",
      "</p>\n    ", ?_⟩
    apply String.ext
    simp [htmlBody, String.data_append, List.append_assoc]

/-- Witness for C9 at the spec's scenario input. -/
theorem c9_witness :
    ∃ r, contact_endpoint (.ok (.pystr "oid")) .sendOk envFull payloadAda
        = (.success r,
           [storeEvent payloadAda,
            .smtpConnect (envFull.SMTP_HOST.getD "") 587, .smtpStarttls,
            .smtpLogin (envFull.SMTP_USER.getD "") (envFull.SMTP_PASS.getD ""),
            .smtpSendmail ((pyOr envFull.SMTP_FROM envFull.SMTP_USER).getD "")
              [(pyOr envFull.SMTP_TO envFull.CONTACT_RECIPIENT).getD ""] (htmlBody payloadAda)])
      ∧ (∃ a b, htmlBody payloadAda = a ++ payloadAda.name ++ b)
      ∧ (∃ a b, htmlBody payloadAda = a ++ payloadAda.email ++ b)
      ∧ (∃ a b, htmlBody payloadAda = a ++ replaceNewlines payloadAda.message ++ b)
      ∧ ¬ '\n' ∈ (replaceNewlines payloadAda.message).toList :=
  c9_mail_content_and_sequence (.ok (.pystr "oid")) envFull payloadAda 587
    (by decide) (by decide) (by decide)
